import Mathlib

/-!
# Kernel-Hosts-Locker: the two kprobe guards of `src/dns_lock.c`

A shallow embedding of `handler_open` (pre-handler on `do_dentry_open`),
`handler_unlink` (pre-handler on `vfs_unlink`) and `dns_lock_init`, which
registers the two probes.

* A `char *` is the list of bytes stored at the pointer; bytes past the end of
  the list read as NUL.  `cstr` is the C string such a buffer holds.
* `f_flags`, `f_mode` and `i_flags` are 32-bit unsigned words, kept as `Nat`;
  `x &= ~M` is `x &&& not32 M`, `x |= M` is `x ||| M`.
* The kernel header constants the handlers use are not part of the repository;
  they are the fields of `KConsts`, and `linux_x86_64` holds the values of the
  kernel headers for the target of the module.
* A pointer that may be `NULL` is an `Option`.  A handler returns its `int`
  result together with the (possibly mutated) object it was passed.
* A mask `M` is requested in a word `x` when `x &&& M ≠ 0` (the test the C code
  makes), set when `x &&& M = M` and cleared when `x &&& M = 0`.
* `current->comm` is an argument of the handlers; the caller tag is its C
  string.
* The outcomes of the two `register_kprobe` calls are arguments of
  `dns_lock_init`; the kernel it acts on is the pair of registration bits and
  the list of calls made.
-/

namespace DnsLock

/-! ## Kernel constants -/

/-- The header constants used by the handlers (`O_TRUNC`, `O_APPEND` of
`fcntl.h`; `FMODE_READ`, `FMODE_WRITE`, `S_IMMUTABLE` of `linux/fs.h`).  Their
definitions are outside the repository, so they are parameters. -/
structure KConsts where
  O_TRUNC : Nat
  O_APPEND : Nat
  FMODE_READ : Nat
  FMODE_WRITE : Nat
  S_IMMUTABLE : Nat
deriving DecidableEq

/-- Values of the constants in the Linux headers for x86_64: `O_TRUNC` is
`00001000`, `O_APPEND` is `00002000`, `FMODE_READ` is `0x1`, `FMODE_WRITE` is
`0x2`, `S_IMMUTABLE` is `(1 << 3)`. -/
def linux_x86_64 : KConsts where
  O_TRUNC := 0o1000
  O_APPEND := 0o2000
  FMODE_READ := 0x1
  FMODE_WRITE := 0x2
  S_IMMUTABLE := 1 <<< 3

/-- Bitwise complement of a 32-bit unsigned word: the value of `~m` once it is
converted to `unsigned int`. -/
def not32 (m : Nat) : Nat := 2 ^ 32 - 1 - m % 2 ^ 32

/-! ## C strings -/

/-- The C string held by a byte buffer: the bytes before the first NUL. -/
def cstr (s : List Nat) : List Nat := s.takeWhile (fun c => c != 0)

/-- Modelled from the spec: the kernel's `strcmp` is not defined in this
repository; section 4.2 describes the comparison as exact and case-sensitive,
with no normalisation.  The model is the byte loop of the C library contract:
read one byte of each string, return `-1` or `1` at the first difference, `0`
when both reach NUL together.  A byte past the end of the list is NUL. -/
def strcmp : List Nat → List Nat → Int
  | [], [] => 0
  | [], c2 :: _ => if c2 = 0 then 0 else -1
  | c1 :: _, [] => if c1 = 0 then 0 else 1
  | c1 :: cs, c2 :: ct =>
    if c1 ≠ c2 then (if c1 < c2 then -1 else 1)
    else if c1 = 0 then 0
    else strcmp cs ct

/-- The bytes of a string literal, without the terminating NUL. -/
def bytes (s : String) : List Nat := s.toList.map Char.toNat

/-- The bytes of `#define TARGET_FILENAME "hosts"`. -/
def TARGET_FILENAME : List Nat := bytes "hosts"

/-- The bytes of `#define ALLOWED_COMM "dns_guard"`. -/
def ALLOWED_COMM : List Nat := bytes "dns_guard"

/-! ## Kernel objects (the fields the handlers touch) -/

/-- Kernel `struct inode`: the handlers use `i_flags` only. -/
structure Inode where
  i_flags : Nat
deriving DecidableEq

/-- Kernel `struct dentry`: `d_name.name` and the `d_inode` pointer. -/
structure Dentry where
  d_name : List Nat
  d_inode : Option Inode
deriving DecidableEq

/-- Kernel `struct file`: `f_flags`, `f_mode` and the `f_path.dentry` pointer. -/
structure File where
  f_flags : Nat
  f_mode : Nat
  f_path_dentry : Option Dentry
deriving DecidableEq

/-! ## The handlers -/

/-- The pre-handler `handler_open`.  `comm` is `current->comm`, `f` is the
`struct file *` taken from `regs->di`.  The result is the returned `int` and
the file after the handler ran. -/
def handler_open (k : KConsts) (comm : List Nat) (f : Option File) : Int × Option File :=
  match f with
  | none => (0, none)
  | some f =>
    match f.f_path_dentry with
    | none => (0, some f)
    | some dentry =>
      let inode := dentry.d_inode
      if strcmp dentry.d_name TARGET_FILENAME = 0 then
        if strcmp comm ALLOWED_COMM = 0 then
          -- if (inode) inode->i_flags &= ~S_IMMUTABLE;
          let inode := inode.map fun i => { i with i_flags := i.i_flags &&& not32 k.S_IMMUTABLE }
          (0, some { f with f_path_dentry := some { dentry with d_inode := inode } })
        else if f.f_mode &&& k.FMODE_WRITE ≠ 0 ∨ f.f_flags &&& k.O_TRUNC ≠ 0 then
          let f_flags := f.f_flags &&& not32 k.O_TRUNC
          let f_flags := f_flags &&& not32 k.O_APPEND
          let f_mode := f.f_mode &&& not32 k.FMODE_WRITE
          let f_mode := f_mode ||| k.FMODE_READ
          -- if (inode) inode->i_flags |= S_IMMUTABLE;
          let inode := inode.map fun i => { i with i_flags := i.i_flags ||| k.S_IMMUTABLE }
          (0, some { f_flags := f_flags, f_mode := f_mode,
                     f_path_dentry := some { dentry with d_inode := inode } })
        else (0, some f)
      else (0, some f)

/-- The pre-handler `handler_unlink`.  `comm` is `current->comm`, `dentry` is
the `struct dentry *` taken from `regs->dx`.  The result is the returned `int`
and the dentry after the handler ran. -/
def handler_unlink (k : KConsts) (comm : List Nat) (dentry : Option Dentry) :
    Int × Option Dentry :=
  match dentry with
  | none => (0, none)
  | some dentry =>
    match dentry.d_inode with
    | none => (0, some dentry)
    | some inode =>
      if strcmp dentry.d_name TARGET_FILENAME = 0 then
        if strcmp comm ALLOWED_COMM ≠ 0 then
          (0, some { dentry with
                     d_inode := some { inode with i_flags := inode.i_flags ||| k.S_IMMUTABLE } })
        else (0, some dentry)
      else (0, some dentry)

/-! ## Sequences of intercepted attempts against one inode -/

/-- The `i_flags` word of the inode behind a file, when file, dentry and inode
are all present. -/
def File.i_flags? (f : Option File) : Option Nat :=
  match f with
  | some ⟨_, _, some ⟨_, some inode⟩⟩ => some inode.i_flags
  | _ => none

/-- The `i_flags` word of the inode behind a dentry, when both are present. -/
def Dentry.i_flags? (d : Option Dentry) : Option Nat :=
  match d with
  | some ⟨_, some inode⟩ => some inode.i_flags
  | _ => none

/-- One intercepted attempt against an inode: the name of the dentry it goes
through, `current->comm` of the caller and, for an open, the requested
`f_flags` and `f_mode`. -/
inductive Attempt
  | Open (name comm : List Nat) (f_flags f_mode : Nat)
  | Unlink (name comm : List Nat)
deriving DecidableEq

/-- The attempts that may clear the flag: an open of the name `hosts` by the
caller `dns_guard`. -/
def Attempt.trusted_open : Attempt → Bool
  | .Open name comm _ _ => cstr name == TARGET_FILENAME && cstr comm == ALLOWED_COMM
  | .Unlink _ _ => false

/-- The probe fires for one attempt against the inode whose flag word is
`i_flags`: the handler runs on a file (or dentry) that points to that inode,
and the result is the inode's flag word afterwards. -/
def step (k : KConsts) (i_flags : Nat) : Attempt → Nat
  | .Open name comm f_flags f_mode =>
    (File.i_flags?
      (handler_open k comm (some ⟨f_flags, f_mode, some ⟨name, some ⟨i_flags⟩⟩⟩)).2).getD i_flags
  | .Unlink name comm =>
    (Dentry.i_flags? (handler_unlink k comm (some ⟨name, some ⟨i_flags⟩⟩)).2).getD i_flags

/-- A finite sequence of attempts against the same inode, in order. -/
def run (k : KConsts) (i_flags : Nat) (attempts : List Attempt) : Nat :=
  attempts.foldl (step k) i_flags

/-! ## The design's dispositions -/

/-- The three-way outcome of a guard decision (section 4.5 of the design).  The
handlers themselves return `0`; the disposition is the design's name for what
a handler did to the request and to the flag. -/
inductive Disposition
  | Unchanged
  | Downgraded (new_flags new_mode : Nat)
  | Blocked
deriving DecidableEq

namespace Spec

/-- The Open-Attempt Guard as section 4.3 words it, steps 1 to 6.  `target` is
the base name of the object, `none` when the object reference is absent;
`caller` is the resolved caller tag. -/
def on_open (k : KConsts) (target : Option (List Nat)) (caller : List Nat)
    (flags mode : Nat) : Disposition :=
  match target with
  | none => .Unchanged
  | some name =>
    if name ≠ TARGET_FILENAME then .Unchanged
    else if caller = ALLOWED_COMM then .Unchanged
    else if mode &&& k.FMODE_WRITE ≠ 0 ∨ flags &&& k.O_TRUNC ≠ 0 then
      .Downgraded ((flags &&& not32 k.O_TRUNC) &&& not32 k.O_APPEND)
        ((mode &&& not32 k.FMODE_WRITE) ||| k.FMODE_READ)
    else .Unchanged

/-- The Unlink-Attempt Guard as section 4.4 words it, steps 1 to 5.  `target`
is the base name of the object, `none` when the object reference or its
backing entity is absent. -/
def on_unlink (target : Option (List Nat)) (caller : List Nat) : Disposition :=
  match target with
  | none => .Unchanged
  | some name =>
    if name ≠ TARGET_FILENAME then .Unchanged
    else if caller = ALLOWED_COMM then .Unchanged
    else .Blocked

end Spec

/-! ## Bit-level frame of a handler -/

/-- Two 32-bit words agree on every bit that is not in `mask`. -/
def agree_outside (mask x y : Nat) : Prop :=
  ∀ i, i < 32 → mask.testBit i = false → x.testBit i = y.testBit i

/-- The inode pointer is `NULL` before and after, or the inode's `i_flags`
differs in bits of `S_IMMUTABLE` only. -/
def frame_inode (k : KConsts) : Option Inode → Option Inode → Prop
  | none, none => True
  | some a, some b => agree_outside k.S_IMMUTABLE a.i_flags b.i_flags
  | _, _ => False

/-- The dentry pointer is `NULL` before and after, or the dentry keeps its
name and its inode is within `frame_inode`. -/
def frame_dentry (k : KConsts) : Option Dentry → Option Dentry → Prop
  | none, none => True
  | some a, some b => a.d_name = b.d_name ∧ frame_inode k a.d_inode b.d_inode
  | _, _ => False

/-- The file pointer is `NULL` before and after, or `f_flags` differs in bits
of `O_TRUNC` and `O_APPEND` only, `f_mode` in bits of `FMODE_WRITE` and
`FMODE_READ` only, and the dentry is within `frame_dentry`. -/
def frame_file (k : KConsts) : Option File → Option File → Prop
  | none, none => True
  | some a, some b =>
    agree_outside (k.O_TRUNC ||| k.O_APPEND) a.f_flags b.f_flags ∧
    agree_outside (k.FMODE_WRITE ||| k.FMODE_READ) a.f_mode b.f_mode ∧
    frame_dentry k a.f_path_dentry b.f_path_dentry
  | _, _ => False

/-- The frame predicates can be evaluated: a word has 32 bits to compare. -/
instance agree_outside_decidable (mask x y : Nat) : Decidable (agree_outside mask x y) :=
  inferInstanceAs (Decidable (∀ i, i < 32 → mask.testBit i = false → x.testBit i = y.testBit i))

instance frame_inode_decidable (k : KConsts) :
    (a b : Option Inode) → Decidable (frame_inode k a b)
  | none, none => isTrue trivial
  | some a, some b => agree_outside_decidable k.S_IMMUTABLE a.i_flags b.i_flags
  | none, some _ => isFalse (fun h => h)
  | some _, none => isFalse (fun h => h)

instance frame_dentry_decidable (k : KConsts) :
    (a b : Option Dentry) → Decidable (frame_dentry k a b)
  | none, none => isTrue trivial
  | some a, some b =>
    inferInstanceAs (Decidable (a.d_name = b.d_name ∧ frame_inode k a.d_inode b.d_inode))
  | none, some _ => isFalse (fun h => h)
  | some _, none => isFalse (fun h => h)

instance frame_file_decidable (k : KConsts) :
    (a b : Option File) → Decidable (frame_file k a b)
  | none, none => isTrue trivial
  | some a, some b =>
    inferInstanceAs (Decidable (
      agree_outside (k.O_TRUNC ||| k.O_APPEND) a.f_flags b.f_flags ∧
      agree_outside (k.FMODE_WRITE ||| k.FMODE_READ) a.f_mode b.f_mode ∧
      frame_dentry k a.f_path_dentry b.f_path_dentry))
  | none, some _ => isFalse (fun h => h)
  | some _, none => isFalse (fun h => h)

/-! ## Module initialisation -/

/-- The two probes of the module: `kp_open` on `do_dentry_open` and
`kp_unlink` on `vfs_unlink`. -/
inductive Kprobe
  | kp_open
  | kp_unlink
deriving DecidableEq

/-- The pre-handler stored in a probe before it is registered. -/
inductive PreHandler
  | handler_open
  | handler_unlink
deriving DecidableEq

/-- What `dns_lock_init` asks of the kernel, in program order.  `pr_err p` is
the message that the hook of probe `p` failed to register, `pr_info_loaded`
the message that the module is loaded. -/
inductive Call
  | register_kprobe (p : Kprobe) (pre_handler : PreHandler)
  | unregister_kprobe (p : Kprobe)
  | pr_err (p : Kprobe)
  | pr_info_loaded
  | try_module_get
deriving DecidableEq

/-- The part of the kernel that `dns_lock_init` acts on: which of the two
probes are registered, and the calls made so far. -/
structure Kernel where
  kp_open_registered : Bool
  kp_unlink_registered : Bool
  calls : List Call
deriving DecidableEq

/-- The kernel as the module is loaded: no probe registered, no call made. -/
def Kernel.fresh : Kernel := ⟨false, false, []⟩

/-- Probe `p` is registered (`true`) or not (`false`) from here on. -/
def Kernel.set_registered (s : Kernel) (p : Kprobe) (b : Bool) : Kernel :=
  match p with
  | .kp_open => { s with kp_open_registered := b }
  | .kp_unlink => { s with kp_unlink_registered := b }

/-- Modelled from the spec: the kernel's `register_kprobe` is not defined in
this repository; section 6 gives it as `register(hook_id, handler)` with a
result that is success or a registration error.  `ret` is the outcome of this
call, `0` for success or a negative error code: the call is recorded, the
probe is registered exactly when `ret` is `0`, and `ret` is returned. -/
def register_kprobe (ret : Int) (p : Kprobe) (pre_handler : PreHandler) (s : Kernel) :
    Int × Kernel :=
  let s := { s with calls := s.calls ++ [Call.register_kprobe p pre_handler] }
  (ret, if ret = 0 then s.set_registered p true else s)

/-- Modelled from the spec: the kernel's `unregister_kprobe` is not defined in
this repository; section 6 gives it as `unregister(hook_id)`.  The call is
recorded and the probe is no longer registered. -/
def unregister_kprobe (p : Kprobe) (s : Kernel) : Kernel :=
  { s with calls := s.calls ++ [Call.unregister_kprobe p] }.set_registered p false

/-- A call that only leaves a trace (`pr_err`, `pr_info`, `try_module_get`). -/
def Kernel.call (s : Kernel) (c : Call) : Kernel :=
  { s with calls := s.calls ++ [c] }

/-- The module's `dns_lock_init`.  `ret_open` and `ret_unlink` are the outcomes
of the two `register_kprobe` calls (the second is not consumed when the first
call fails).  The result is the returned `int` and the kernel afterwards. -/
def dns_lock_init (ret_open ret_unlink : Int) (s : Kernel) : Int × Kernel :=
  -- kp_open.pre_handler = handler_open; ret = register_kprobe(&kp_open);
  let (ret, s) := register_kprobe ret_open .kp_open .handler_open s
  if ret < 0 then
    (ret, s.call (.pr_err .kp_open))
  else
    -- kp_unlink.pre_handler = handler_unlink; ret = register_kprobe(&kp_unlink);
    let (ret, s) := register_kprobe ret_unlink .kp_unlink .handler_unlink s
    if ret < 0 then
      let s := unregister_kprobe .kp_open s
      (ret, s.call (.pr_err .kp_unlink))
    else
      let s := s.call .pr_info_loaded
      let s := s.call .try_module_get
      (0, s)

/-! ## Facts about `strcmp` and the bit operations -/

theorem cstr_nil : cstr [] = [] := rfl

theorem cstr_cons (c : Nat) (s : List Nat) :
    cstr (c :: s) = if c = 0 then [] else c :: cstr s := by
  by_cases h : c = 0 <;> simp [cstr, List.takeWhile_cons, h]

/-- The comparison returns `0` exactly when the two buffers hold the same C string. -/
theorem strcmp_eq_zero_iff (a b : List Nat) : strcmp a b = 0 ↔ cstr a = cstr b := by
  induction a generalizing b with
  | nil =>
    cases b with
    | nil => simp [strcmp, cstr_nil]
    | cons c2 ct =>
      by_cases h : c2 = 0 <;> simp [strcmp, cstr_nil, cstr_cons, h]
  | cons c1 cs ih =>
    cases b with
    | nil =>
      by_cases h : c1 = 0 <;> simp [strcmp, cstr_nil, cstr_cons, h]
    | cons c2 ct =>
      by_cases h12 : c1 = c2
      · subst h12
        by_cases h : c1 = 0
        · simp [strcmp, cstr_cons, h]
        · simp [strcmp, cstr_cons, h, ih]
      · have hne : strcmp (c1 :: cs) (c2 :: ct) ≠ 0 := by
          by_cases hlt : c1 < c2 <;> simp [strcmp, h12, hlt]
        have hstr : cstr (c1 :: cs) ≠ cstr (c2 :: ct) := by
          by_cases h1 : c1 = 0 <;> by_cases h2 : c2 = 0 <;>
            simp_all [cstr_cons]
        exact ⟨fun h => absurd h hne, fun h => absurd h hstr⟩

theorem cstr_TARGET_FILENAME : cstr TARGET_FILENAME = TARGET_FILENAME := by decide

theorem cstr_ALLOWED_COMM : cstr ALLOWED_COMM = ALLOWED_COMM := by decide

/-- The test `strcmp(dentry->d_name.name, TARGET_FILENAME) == 0` holds exactly
for the buffers whose C string is `hosts`. -/
theorem name_test_iff (name : List Nat) :
    strcmp name TARGET_FILENAME = 0 ↔ cstr name = TARGET_FILENAME := by
  rw [strcmp_eq_zero_iff, cstr_TARGET_FILENAME]

/-- The test `strcmp(current->comm, ALLOWED_COMM) == 0` holds exactly for the
buffers whose C string is `dns_guard`. -/
theorem comm_test_iff (comm : List Nat) :
    strcmp comm ALLOWED_COMM = 0 ↔ cstr comm = ALLOWED_COMM := by
  rw [strcmp_eq_zero_iff, cstr_ALLOWED_COMM]

theorem testBit_not32 (m i : Nat) :
    (not32 m).testBit i = (decide (i < 32) && !m.testBit i) := by
  have h : m % 2 ^ 32 < 2 ^ 32 := Nat.mod_lt _ (by decide)
  have e : not32 m = 2 ^ 32 - (m % 2 ^ 32 + 1) := by unfold not32; omega
  rw [e, Nat.testBit_two_pow_sub_succ h, Nat.testBit_mod_two_pow]
  by_cases hi : i < 32 <;> simp [hi]

/-- After `x &= ~m` no bit of `m` is left in `x`. -/
theorem and_not32_and_self (x m : Nat) : (x &&& not32 m) &&& m = 0 := by
  apply Nat.eq_of_testBit_eq
  intro i
  simp only [Nat.testBit_and, testBit_not32, Nat.zero_testBit]
  cases x.testBit i <;> cases m.testBit i <;> simp

/-- Clearing a second mask keeps the first one cleared. -/
theorem and_not32_and_not32_and_left (x m n : Nat) :
    ((x &&& not32 m) &&& not32 n) &&& m = 0 := by
  apply Nat.eq_of_testBit_eq
  intro i
  simp only [Nat.testBit_and, testBit_not32, Nat.zero_testBit]
  cases x.testBit i <;> cases m.testBit i <;> simp

/-- After `x |= m` every bit of `m` is in `x`. -/
theorem or_and_self (x m : Nat) : (x ||| m) &&& m = m := by
  apply Nat.eq_of_testBit_eq
  intro i
  simp only [Nat.testBit_and, Nat.testBit_or]
  cases x.testBit i <;> cases m.testBit i <;> simp

/-- After `x &= ~w; x |= r` no bit of `w` is left, when `r` and `w` share no bit. -/
theorem and_not32_or_and (x w r : Nat) (h : r &&& w = 0) :
    ((x &&& not32 w) ||| r) &&& w = 0 := by
  apply Nat.eq_of_testBit_eq
  intro i
  have hi : (r &&& w).testBit i = false := by rw [h, Nat.zero_testBit]
  rw [Nat.testBit_and] at hi
  simp only [Nat.testBit_and, Nat.testBit_or, testBit_not32, Nat.zero_testBit]
  revert hi
  cases x.testBit i <;> cases w.testBit i <;> cases r.testBit i <;> simp

/-! ## What a handler can do to the flag word -/

/-- On a dentry with an inode, `handler_unlink` returns `0`, keeps the dentry
and either keeps `i_flags` or ors `S_IMMUTABLE` into it. -/
theorem handler_unlink_inode_cases (k : KConsts) (comm name : List Nat) (i_flags : Nat) :
    handler_unlink k comm (some ⟨name, some ⟨i_flags⟩⟩) = (0, some ⟨name, some ⟨i_flags⟩⟩) ∨
    handler_unlink k comm (some ⟨name, some ⟨i_flags⟩⟩)
      = (0, some ⟨name, some ⟨i_flags ||| k.S_IMMUTABLE⟩⟩) := by
  by_cases h1 : strcmp name TARGET_FILENAME = 0
  · by_cases h2 : strcmp comm ALLOWED_COMM = 0
    · left
      simp only [handler_unlink, h1, h2, if_true, ne_eq, not_true_eq_false, if_false]
    · right
      simp only [handler_unlink, h1, if_true, ne_eq, h2, not_false_eq_true]
  · left
    simp only [handler_unlink, h1, if_false]

/-- On a file with dentry and inode, unless the name is `hosts` and the caller
is `dns_guard`, `handler_open` returns `0`, keeps the dentry's name and either
keeps the whole file or ors `S_IMMUTABLE` into `i_flags`. -/
theorem handler_open_inode_cases (k : KConsts) (comm name : List Nat)
    (f_flags f_mode i_flags : Nat)
    (h : ¬ (cstr name = TARGET_FILENAME ∧ cstr comm = ALLOWED_COMM)) :
    handler_open k comm (some ⟨f_flags, f_mode, some ⟨name, some ⟨i_flags⟩⟩⟩)
      = (0, some ⟨f_flags, f_mode, some ⟨name, some ⟨i_flags⟩⟩⟩) ∨
    ∃ f_flags' f_mode',
      handler_open k comm (some ⟨f_flags, f_mode, some ⟨name, some ⟨i_flags⟩⟩⟩)
        = (0, some ⟨f_flags', f_mode', some ⟨name, some ⟨i_flags ||| k.S_IMMUTABLE⟩⟩⟩) := by
  by_cases h1 : strcmp name TARGET_FILENAME = 0
  · have h2 : ¬ strcmp comm ALLOWED_COMM = 0 :=
      fun h2 => h ⟨(name_test_iff name).1 h1, (comm_test_iff comm).1 h2⟩
    by_cases h3 : f_mode &&& k.FMODE_WRITE ≠ 0 ∨ f_flags &&& k.O_TRUNC ≠ 0
    · right
      refine ⟨(f_flags &&& not32 k.O_TRUNC) &&& not32 k.O_APPEND,
        (f_mode &&& not32 k.FMODE_WRITE) ||| k.FMODE_READ, ?_⟩
      simp only [handler_open, h1, h2, if_true, if_false, if_pos h3, Option.map_some']
    · left
      simp only [handler_open, h1, h2, if_true, if_false, if_neg h3]
  · left
    simp only [handler_open, h1, if_false]

/-- One attempt that is not an open of `hosts` by `dns_guard` keeps
`S_IMMUTABLE` set. -/
theorem step_keeps_S_IMMUTABLE (k : KConsts) (i_flags : Nat) (a : Attempt)
    (ha : a.trusted_open = false)
    (hset : i_flags &&& k.S_IMMUTABLE = k.S_IMMUTABLE) :
    step k i_flags a &&& k.S_IMMUTABLE = k.S_IMMUTABLE := by
  cases a with
  | Open name comm f_flags f_mode =>
    have h : ¬ (cstr name = TARGET_FILENAME ∧ cstr comm = ALLOWED_COMM) := by
      rintro ⟨hn, hc⟩
      simp [Attempt.trusted_open, hn, hc] at ha
    rcases handler_open_inode_cases k comm name f_flags f_mode i_flags h with e | ⟨_, _, e⟩
    · simp only [step, e, File.i_flags?, Option.getD_some]
      exact hset
    · simp only [step, e, File.i_flags?, Option.getD_some]
      exact or_and_self i_flags k.S_IMMUTABLE
  | Unlink name comm =>
    rcases handler_unlink_inode_cases k comm name i_flags with e | e
    · simp only [step, e, Dentry.i_flags?, Option.getD_some]
      exact hset
    · simp only [step, e, Dentry.i_flags?, Option.getD_some]
      exact or_and_self i_flags k.S_IMMUTABLE

/-- A sequence without an open of `hosts` by `dns_guard` keeps `S_IMMUTABLE` set. -/
theorem run_keeps_S_IMMUTABLE (k : KConsts) (attempts : List Attempt) :
    ∀ i_flags : Nat, (∀ a ∈ attempts, Attempt.trusted_open a = false) →
      i_flags &&& k.S_IMMUTABLE = k.S_IMMUTABLE →
      run k i_flags attempts &&& k.S_IMMUTABLE = k.S_IMMUTABLE := by
  induction attempts with
  | nil => intro i_flags _ hset; exact hset
  | cons a rest ih =>
    intro i_flags hall hset
    have ha : Attempt.trusted_open a = false := hall a (List.mem_cons_self a rest)
    have hrest : ∀ b ∈ rest, Attempt.trusted_open b = false :=
      fun b hb => hall b (List.mem_cons_of_mem a hb)
    simp only [run, List.foldl_cons]
    exact ih (step k i_flags a) hrest (step_keeps_S_IMMUTABLE k i_flags a ha hset)

/-! ## The open guard -/

/-- C1: an open of an object named exactly `hosts` by a caller other than
`dns_guard`, asking for `FMODE_WRITE` or `O_TRUNC`, leaves `handler_open` with
`O_TRUNC`, `O_APPEND` and `FMODE_WRITE` cleared and `FMODE_READ` set (the
`Downgraded` disposition, carrying the new flags and mode), and with
`S_IMMUTABLE` set in the inode's `i_flags`, whatever `i_flags` was before.
`FMODE_READ` and `FMODE_WRITE` are taken to be different bits. -/
theorem handler_open_untrusted_write_downgrades (k : KConsts) (comm name : List Nat)
    (f_flags f_mode i_flags : Nat)
    (hrw : k.FMODE_READ &&& k.FMODE_WRITE = 0)
    (hname : cstr name = TARGET_FILENAME)
    (hcomm : cstr comm ≠ ALLOWED_COMM)
    (hreq : f_mode &&& k.FMODE_WRITE ≠ 0 ∨ f_flags &&& k.O_TRUNC ≠ 0) :
    ∃ f_flags' f_mode' i_flags',
      handler_open k comm (some ⟨f_flags, f_mode, some ⟨name, some ⟨i_flags⟩⟩⟩)
        = (0, some ⟨f_flags', f_mode', some ⟨name, some ⟨i_flags'⟩⟩⟩) ∧
      f_flags' &&& k.O_TRUNC = 0 ∧
      f_flags' &&& k.O_APPEND = 0 ∧
      f_mode' &&& k.FMODE_WRITE = 0 ∧
      f_mode' &&& k.FMODE_READ = k.FMODE_READ ∧
      i_flags' &&& k.S_IMMUTABLE = k.S_IMMUTABLE ∧
      Spec.on_open k (some (cstr name)) (cstr comm) f_flags f_mode
        = Disposition.Downgraded f_flags' f_mode' := by
  have h1 : strcmp name TARGET_FILENAME = 0 := (name_test_iff name).2 hname
  have h2 : ¬ strcmp comm ALLOWED_COMM = 0 := fun h => hcomm ((comm_test_iff comm).1 h)
  refine ⟨(f_flags &&& not32 k.O_TRUNC) &&& not32 k.O_APPEND,
    (f_mode &&& not32 k.FMODE_WRITE) ||| k.FMODE_READ, i_flags ||| k.S_IMMUTABLE,
    ?_, ?_, ?_, ?_, ?_, ?_, ?_⟩
  · simp only [handler_open, h1, h2, if_true, if_false, if_pos hreq, Option.map_some']
  · exact and_not32_and_not32_and_left f_flags k.O_TRUNC k.O_APPEND
  · exact and_not32_and_self _ k.O_APPEND
  · exact and_not32_or_and f_mode k.FMODE_WRITE k.FMODE_READ hrw
  · exact or_and_self _ k.FMODE_READ
  · exact or_and_self i_flags k.S_IMMUTABLE
  · simp only [Spec.on_open, hname, hcomm, ne_eq, not_true_eq_false, if_false, if_pos hreq]

/-- Scenario A of the design: name `hosts`, caller `attacker`, write-only open. -/
theorem handler_open_untrusted_write_downgrades_witness :
    (linux_x86_64.FMODE_READ &&& linux_x86_64.FMODE_WRITE = 0 ∧
      cstr (bytes "hosts") = TARGET_FILENAME ∧
      cstr (bytes "attacker") ≠ ALLOWED_COMM ∧
      (2 &&& linux_x86_64.FMODE_WRITE ≠ 0 ∨ 1 &&& linux_x86_64.O_TRUNC ≠ 0)) ∧
    ∃ f_flags' f_mode' i_flags',
      handler_open linux_x86_64 (bytes "attacker")
          (some ⟨1, 2, some ⟨bytes "hosts", some ⟨0⟩⟩⟩)
        = (0, some ⟨f_flags', f_mode', some ⟨bytes "hosts", some ⟨i_flags'⟩⟩⟩) ∧
      f_flags' &&& linux_x86_64.O_TRUNC = 0 ∧
      f_flags' &&& linux_x86_64.O_APPEND = 0 ∧
      f_mode' &&& linux_x86_64.FMODE_WRITE = 0 ∧
      f_mode' &&& linux_x86_64.FMODE_READ = linux_x86_64.FMODE_READ ∧
      i_flags' &&& linux_x86_64.S_IMMUTABLE = linux_x86_64.S_IMMUTABLE ∧
      Spec.on_open linux_x86_64 (some (cstr (bytes "hosts"))) (cstr (bytes "attacker")) 1 2
        = Disposition.Downgraded f_flags' f_mode' :=
  ⟨⟨by decide, by decide, by decide, by decide⟩,
    handler_open_untrusted_write_downgrades linux_x86_64 (bytes "attacker") (bytes "hosts")
      1 2 0 (by decide) (by decide) (by decide) (by decide)⟩

/-- C2: an open of an object named exactly `hosts` by the caller `dns_guard`
clears `S_IMMUTABLE` in the inode's `i_flags` and leaves `f_flags` and `f_mode`
exactly as requested, for every requested `f_flags` and `f_mode` (disposition
`Unchanged`). -/
theorem handler_open_trusted_clears (k : KConsts) (comm name : List Nat)
    (f_flags f_mode i_flags : Nat)
    (hname : cstr name = TARGET_FILENAME)
    (hcomm : cstr comm = ALLOWED_COMM) :
    ∃ i_flags',
      handler_open k comm (some ⟨f_flags, f_mode, some ⟨name, some ⟨i_flags⟩⟩⟩)
        = (0, some ⟨f_flags, f_mode, some ⟨name, some ⟨i_flags'⟩⟩⟩) ∧
      i_flags' &&& k.S_IMMUTABLE = 0 ∧
      Spec.on_open k (some (cstr name)) (cstr comm) f_flags f_mode
        = Disposition.Unchanged := by
  have h1 : strcmp name TARGET_FILENAME = 0 := (name_test_iff name).2 hname
  have h2 : strcmp comm ALLOWED_COMM = 0 := (comm_test_iff comm).2 hcomm
  refine ⟨i_flags &&& not32 k.S_IMMUTABLE, ?_, and_not32_and_self i_flags k.S_IMMUTABLE, ?_⟩
  · simp only [handler_open, h1, h2, if_true, Option.map_some']
  · simp only [Spec.on_open, hname, hcomm, ne_eq, not_true_eq_false, if_false, if_true]

/-- Scenario B of the design: name `hosts`, caller `dns_guard`, write and
truncate requested, on a hardened inode. -/
theorem handler_open_trusted_clears_witness :
    (cstr (bytes "hosts") = TARGET_FILENAME ∧ cstr (bytes "dns_guard") = ALLOWED_COMM) ∧
    ∃ i_flags',
      handler_open linux_x86_64 (bytes "dns_guard")
          (some ⟨0o1001, 2, some ⟨bytes "hosts", some ⟨8⟩⟩⟩)
        = (0, some ⟨0o1001, 2, some ⟨bytes "hosts", some ⟨i_flags'⟩⟩⟩) ∧
      i_flags' &&& linux_x86_64.S_IMMUTABLE = 0 ∧
      Spec.on_open linux_x86_64 (some (cstr (bytes "hosts"))) (cstr (bytes "dns_guard"))
        0o1001 2 = Disposition.Unchanged :=
  ⟨⟨by decide, by decide⟩,
    handler_open_trusted_clears linux_x86_64 (bytes "dns_guard") (bytes "hosts")
      0o1001 2 8 (by decide) (by decide)⟩

/-- C4: an open of an object whose base name is not exactly `hosts` leaves
`f_flags`, `f_mode` and the inode (its `i_flags`, or its absence) exactly as
they were, for every caller and every requested flags and mode (disposition
`Unchanged`). -/
theorem handler_open_other_name_unchanged (k : KConsts) (comm name : List Nat)
    (f_flags f_mode : Nat) (inode : Option Inode)
    (hname : cstr name ≠ TARGET_FILENAME) :
    handler_open k comm (some ⟨f_flags, f_mode, some ⟨name, inode⟩⟩)
      = (0, some ⟨f_flags, f_mode, some ⟨name, inode⟩⟩) ∧
    Spec.on_open k (some (cstr name)) (cstr comm) f_flags f_mode
      = Disposition.Unchanged := by
  have h1 : ¬ strcmp name TARGET_FILENAME = 0 := fun h => hname ((name_test_iff name).1 h)
  constructor
  · simp only [handler_open, h1, if_false]
  · simp only [Spec.on_open, hname, ne_eq, not_false_eq_true, if_true]

/-- Scenario C of the design: name `other.txt`, caller `attacker`, write
requested. -/
theorem handler_open_other_name_unchanged_witness :
    cstr (bytes "other.txt") ≠ TARGET_FILENAME ∧
    handler_open linux_x86_64 (bytes "attacker")
        (some ⟨1, 2, some ⟨bytes "other.txt", some ⟨0⟩⟩⟩)
      = (0, some ⟨1, 2, some ⟨bytes "other.txt", some ⟨0⟩⟩⟩) ∧
    Spec.on_open linux_x86_64 (some (cstr (bytes "other.txt"))) (cstr (bytes "attacker")) 1 2
      = Disposition.Unchanged :=
  ⟨by decide,
    handler_open_other_name_unchanged linux_x86_64 (bytes "attacker") (bytes "other.txt")
      1 2 (some ⟨0⟩) (by decide)⟩

/-- C5: an open of an object named exactly `hosts` by a caller other than
`dns_guard` that asks for neither `FMODE_WRITE` nor `O_TRUNC` leaves `f_flags`,
`f_mode` and the inode's `i_flags` exactly as they were (disposition
`Unchanged`, `S_IMMUTABLE` at its prior value). -/
theorem handler_open_untrusted_read_unchanged (k : KConsts) (comm name : List Nat)
    (f_flags f_mode : Nat) (inode : Option Inode)
    (hname : cstr name = TARGET_FILENAME)
    (hcomm : cstr comm ≠ ALLOWED_COMM)
    (hw : f_mode &&& k.FMODE_WRITE = 0)
    (ht : f_flags &&& k.O_TRUNC = 0) :
    handler_open k comm (some ⟨f_flags, f_mode, some ⟨name, inode⟩⟩)
      = (0, some ⟨f_flags, f_mode, some ⟨name, inode⟩⟩) ∧
    Spec.on_open k (some (cstr name)) (cstr comm) f_flags f_mode
      = Disposition.Unchanged := by
  have h1 : strcmp name TARGET_FILENAME = 0 := (name_test_iff name).2 hname
  have h2 : ¬ strcmp comm ALLOWED_COMM = 0 := fun h => hcomm ((comm_test_iff comm).1 h)
  have h3 : ¬ (f_mode &&& k.FMODE_WRITE ≠ 0 ∨ f_flags &&& k.O_TRUNC ≠ 0) := by
    rintro (h | h)
    · exact h hw
    · exact h ht
  constructor
  · simp only [handler_open, h1, h2, if_true, if_false, if_neg h3]
  · simp only [Spec.on_open, hname, hcomm, ne_eq, not_true_eq_false, if_false, if_neg h3]

/-- A read-only open of `hosts` by `attacker`, with `O_APPEND` in the flags and
a hardened inode: nothing changes. -/
theorem handler_open_untrusted_read_unchanged_witness :
    (cstr (bytes "hosts") = TARGET_FILENAME ∧ cstr (bytes "attacker") ≠ ALLOWED_COMM ∧
      1 &&& linux_x86_64.FMODE_WRITE = 0 ∧ 0o2000 &&& linux_x86_64.O_TRUNC = 0) ∧
    handler_open linux_x86_64 (bytes "attacker")
        (some ⟨0o2000, 1, some ⟨bytes "hosts", some ⟨8⟩⟩⟩)
      = (0, some ⟨0o2000, 1, some ⟨bytes "hosts", some ⟨8⟩⟩⟩) ∧
    Spec.on_open linux_x86_64 (some (cstr (bytes "hosts"))) (cstr (bytes "attacker")) 0o2000 1
      = Disposition.Unchanged :=
  ⟨⟨by decide, by decide, by decide, by decide⟩,
    handler_open_untrusted_read_unchanged linux_x86_64 (bytes "attacker") (bytes "hosts")
      0o2000 1 (some ⟨8⟩) (by decide) (by decide) (by decide) (by decide)⟩

/-! ## The unlink guard -/

/-- C3: an unlink of an object named exactly `hosts`, with a backing inode, by
a caller other than `dns_guard` sets `S_IMMUTABLE` in the inode's `i_flags`,
whatever `i_flags` was before; the handler returns `0` with the dentry
otherwise as it was, and the disposition of the design is `Blocked`. -/
theorem handler_unlink_untrusted_hardens (k : KConsts) (comm name : List Nat)
    (i_flags : Nat)
    (hname : cstr name = TARGET_FILENAME)
    (hcomm : cstr comm ≠ ALLOWED_COMM) :
    ∃ i_flags',
      handler_unlink k comm (some ⟨name, some ⟨i_flags⟩⟩)
        = (0, some ⟨name, some ⟨i_flags'⟩⟩) ∧
      i_flags' &&& k.S_IMMUTABLE = k.S_IMMUTABLE ∧
      Spec.on_unlink (some (cstr name)) (cstr comm) = Disposition.Blocked := by
  have h1 : strcmp name TARGET_FILENAME = 0 := (name_test_iff name).2 hname
  have h2 : strcmp comm ALLOWED_COMM ≠ 0 := fun h => hcomm ((comm_test_iff comm).1 h)
  refine ⟨i_flags ||| k.S_IMMUTABLE, ?_, or_and_self i_flags k.S_IMMUTABLE, ?_⟩
  · simp only [handler_unlink, h1, if_true, if_pos h2]
  · simp only [Spec.on_unlink, hname, hcomm, ne_eq, not_true_eq_false, if_false]

/-- Scenario D of the design: unlink of `hosts` by `attacker`. -/
theorem handler_unlink_untrusted_hardens_witness :
    (cstr (bytes "hosts") = TARGET_FILENAME ∧ cstr (bytes "attacker") ≠ ALLOWED_COMM) ∧
    ∃ i_flags',
      handler_unlink linux_x86_64 (bytes "attacker") (some ⟨bytes "hosts", some ⟨0⟩⟩)
        = (0, some ⟨bytes "hosts", some ⟨i_flags'⟩⟩) ∧
      i_flags' &&& linux_x86_64.S_IMMUTABLE = linux_x86_64.S_IMMUTABLE ∧
      Spec.on_unlink (some (cstr (bytes "hosts"))) (cstr (bytes "attacker"))
        = Disposition.Blocked :=
  ⟨⟨by decide, by decide⟩,
    handler_unlink_untrusted_hardens linux_x86_64 (bytes "attacker") (bytes "hosts") 0
      (by decide) (by decide)⟩

/-- C6: an unlink of an object named exactly `hosts` by the caller `dns_guard`
leaves the dentry and the inode's `i_flags` exactly as they were: `S_IMMUTABLE`
is neither set nor cleared (disposition `Unchanged`). -/
theorem handler_unlink_trusted_unchanged (k : KConsts) (comm name : List Nat)
    (inode : Option Inode)
    (hname : cstr name = TARGET_FILENAME)
    (hcomm : cstr comm = ALLOWED_COMM) :
    handler_unlink k comm (some ⟨name, inode⟩) = (0, some ⟨name, inode⟩) ∧
    Spec.on_unlink (some (cstr name)) (cstr comm) = Disposition.Unchanged := by
  have h1 : strcmp name TARGET_FILENAME = 0 := (name_test_iff name).2 hname
  have h2 : strcmp comm ALLOWED_COMM = 0 := (comm_test_iff comm).2 hcomm
  constructor
  · cases inode with
    | none => simp only [handler_unlink]
    | some i => simp only [handler_unlink, h1, h2, if_true, ne_eq, not_true_eq_false, if_false]
  · simp only [Spec.on_unlink, hname, hcomm, ne_eq, not_true_eq_false, if_false, if_true]

/-- Scenario E of the design: unlink of `hosts` by `dns_guard`, once on a
hardened inode and once on a normal one. -/
theorem handler_unlink_trusted_unchanged_witness :
    (cstr (bytes "hosts") = TARGET_FILENAME ∧ cstr (bytes "dns_guard") = ALLOWED_COMM) ∧
    (handler_unlink linux_x86_64 (bytes "dns_guard") (some ⟨bytes "hosts", some ⟨8⟩⟩)
        = (0, some ⟨bytes "hosts", some ⟨8⟩⟩) ∧
      Spec.on_unlink (some (cstr (bytes "hosts"))) (cstr (bytes "dns_guard"))
        = Disposition.Unchanged) ∧
    (handler_unlink linux_x86_64 (bytes "dns_guard") (some ⟨bytes "hosts", some ⟨0⟩⟩)
        = (0, some ⟨bytes "hosts", some ⟨0⟩⟩) ∧
      Spec.on_unlink (some (cstr (bytes "hosts"))) (cstr (bytes "dns_guard"))
        = Disposition.Unchanged) :=
  ⟨⟨by decide, by decide⟩,
    handler_unlink_trusted_unchanged linux_x86_64 (bytes "dns_guard") (bytes "hosts")
      (some ⟨8⟩) (by decide) (by decide),
    handler_unlink_trusted_unchanged linux_x86_64 (bytes "dns_guard") (bytes "hosts")
      (some ⟨0⟩) (by decide) (by decide)⟩

/-! ## Persistence, repetition, name matching, absent references -/

/-- C7: starting from an inode whose `S_IMMUTABLE` bit is set, the bit is still
set after every finite sequence of opens and unlinks against it (any names,
flags, modes and callers) that has no open of the name `hosts` by the caller
`dns_guard`; in particular `handler_unlink` never clears the bit, and
`handler_open` never clears it for a caller other than `dns_guard`. -/
theorem hardening_persists (k : KConsts) (i_flags : Nat)
    (hset : i_flags &&& k.S_IMMUTABLE = k.S_IMMUTABLE) :
    (∀ attempts : List Attempt, (∀ a ∈ attempts, Attempt.trusted_open a = false) →
      run k i_flags attempts &&& k.S_IMMUTABLE = k.S_IMMUTABLE) ∧
    (∀ comm name : List Nat, ∃ i_flags',
      handler_unlink k comm (some ⟨name, some ⟨i_flags⟩⟩)
        = (0, some ⟨name, some ⟨i_flags'⟩⟩) ∧
      i_flags' &&& k.S_IMMUTABLE = k.S_IMMUTABLE) ∧
    (∀ (comm name : List Nat) (f_flags f_mode : Nat), cstr comm ≠ ALLOWED_COMM →
      ∃ f_flags' f_mode' i_flags',
        handler_open k comm (some ⟨f_flags, f_mode, some ⟨name, some ⟨i_flags⟩⟩⟩)
          = (0, some ⟨f_flags', f_mode', some ⟨name, some ⟨i_flags'⟩⟩⟩) ∧
        i_flags' &&& k.S_IMMUTABLE = k.S_IMMUTABLE) := by
  refine ⟨fun attempts hall => run_keeps_S_IMMUTABLE k attempts i_flags hall hset, ?_, ?_⟩
  · intro comm name
    rcases handler_unlink_inode_cases k comm name i_flags with e | e
    · exact ⟨i_flags, e, hset⟩
    · exact ⟨i_flags ||| k.S_IMMUTABLE, e, or_and_self i_flags k.S_IMMUTABLE⟩
  · intro comm name f_flags f_mode hcomm
    rcases handler_open_inode_cases k comm name f_flags f_mode i_flags
      (fun h => hcomm h.2) with e | ⟨f_flags', f_mode', e⟩
    · exact ⟨f_flags, f_mode, i_flags, e, hset⟩
    · exact ⟨f_flags', f_mode', i_flags ||| k.S_IMMUTABLE, e,
        or_and_self i_flags k.S_IMMUTABLE⟩

/-- A hardened inode (`i_flags = 0x18`) stays hardened through an unlink by
`dns_guard`, a write open by `attacker`, an open of `other.txt` by
`dns_guard`, an unlink by `attacker` and a read-only open by `attacker`. -/
theorem hardening_persists_witness :
    0x18 &&& linux_x86_64.S_IMMUTABLE = linux_x86_64.S_IMMUTABLE ∧
    run linux_x86_64 0x18
        [Attempt.Unlink (bytes "hosts") (bytes "dns_guard"),
         Attempt.Open (bytes "hosts") (bytes "attacker") 0o1001 2,
         Attempt.Open (bytes "other.txt") (bytes "dns_guard") 2 3,
         Attempt.Unlink (bytes "hosts") (bytes "attacker"),
         Attempt.Open (bytes "hosts") (bytes "attacker") 0 1]
      &&& linux_x86_64.S_IMMUTABLE = linux_x86_64.S_IMMUTABLE :=
  ⟨by decide,
    (hardening_persists linux_x86_64 0x18 (by decide)).1
      [Attempt.Unlink (bytes "hosts") (bytes "dns_guard"),
       Attempt.Open (bytes "hosts") (bytes "attacker") 0o1001 2,
       Attempt.Open (bytes "other.txt") (bytes "dns_guard") 2 3,
       Attempt.Unlink (bytes "hosts") (bytes "attacker"),
       Attempt.Open (bytes "hosts") (bytes "attacker") 0 1]
      (by decide)⟩

/-- C8: for a caller other than `dns_guard` and a request with `FMODE_WRITE`
set on an object named exactly `hosts`, two successive calls of `handler_open`
with the same requested `f_flags` and `f_mode` (the second one finds the inode
as the first one left it) give the same downgraded `f_flags` and `f_mode`, and
`S_IMMUTABLE` is set after the first call and after the second. -/
theorem handler_open_downgrade_twice (k : KConsts) (comm name : List Nat)
    (f_flags f_mode i_flags : Nat)
    (hname : cstr name = TARGET_FILENAME)
    (hcomm : cstr comm ≠ ALLOWED_COMM)
    (hw : f_mode &&& k.FMODE_WRITE ≠ 0) :
    ∃ i_flags1 i_flags2,
      handler_open k comm (some ⟨f_flags, f_mode, some ⟨name, some ⟨i_flags⟩⟩⟩)
        = (0, some ⟨(f_flags &&& not32 k.O_TRUNC) &&& not32 k.O_APPEND,
                    (f_mode &&& not32 k.FMODE_WRITE) ||| k.FMODE_READ,
                    some ⟨name, some ⟨i_flags1⟩⟩⟩) ∧
      handler_open k comm (some ⟨f_flags, f_mode, some ⟨name, some ⟨i_flags1⟩⟩⟩)
        = (0, some ⟨(f_flags &&& not32 k.O_TRUNC) &&& not32 k.O_APPEND,
                    (f_mode &&& not32 k.FMODE_WRITE) ||| k.FMODE_READ,
                    some ⟨name, some ⟨i_flags2⟩⟩⟩) ∧
      i_flags1 &&& k.S_IMMUTABLE = k.S_IMMUTABLE ∧
      i_flags2 &&& k.S_IMMUTABLE = k.S_IMMUTABLE ∧
      Spec.on_open k (some (cstr name)) (cstr comm) f_flags f_mode
        = Disposition.Downgraded ((f_flags &&& not32 k.O_TRUNC) &&& not32 k.O_APPEND)
            ((f_mode &&& not32 k.FMODE_WRITE) ||| k.FMODE_READ) := by
  have h1 : strcmp name TARGET_FILENAME = 0 := (name_test_iff name).2 hname
  have h2 : ¬ strcmp comm ALLOWED_COMM = 0 := fun h => hcomm ((comm_test_iff comm).1 h)
  have h3 : f_mode &&& k.FMODE_WRITE ≠ 0 ∨ f_flags &&& k.O_TRUNC ≠ 0 := Or.inl hw
  refine ⟨i_flags ||| k.S_IMMUTABLE, (i_flags ||| k.S_IMMUTABLE) ||| k.S_IMMUTABLE,
    ?_, ?_, or_and_self _ _, or_and_self _ _, ?_⟩
  · simp only [handler_open, h1, h2, if_true, if_false, if_pos h3, Option.map_some']
  · simp only [handler_open, h1, h2, if_true, if_false, if_pos h3, Option.map_some']
  · simp only [Spec.on_open, hname, hcomm, ne_eq, not_true_eq_false, if_false, if_pos h3]

/-- A read-write open with `O_TRUNC` and `O_APPEND` of `hosts` by `attacker`,
on a normal inode, twice. -/
theorem handler_open_downgrade_twice_witness :
    (cstr (bytes "hosts") = TARGET_FILENAME ∧ cstr (bytes "attacker") ≠ ALLOWED_COMM ∧
      3 &&& linux_x86_64.FMODE_WRITE ≠ 0) ∧
    ∃ i_flags1 i_flags2,
      handler_open linux_x86_64 (bytes "attacker")
          (some ⟨0o3002, 3, some ⟨bytes "hosts", some ⟨0⟩⟩⟩)
        = (0, some ⟨(0o3002 &&& not32 linux_x86_64.O_TRUNC) &&& not32 linux_x86_64.O_APPEND,
                    (3 &&& not32 linux_x86_64.FMODE_WRITE) ||| linux_x86_64.FMODE_READ,
                    some ⟨bytes "hosts", some ⟨i_flags1⟩⟩⟩) ∧
      handler_open linux_x86_64 (bytes "attacker")
          (some ⟨0o3002, 3, some ⟨bytes "hosts", some ⟨i_flags1⟩⟩⟩)
        = (0, some ⟨(0o3002 &&& not32 linux_x86_64.O_TRUNC) &&& not32 linux_x86_64.O_APPEND,
                    (3 &&& not32 linux_x86_64.FMODE_WRITE) ||| linux_x86_64.FMODE_READ,
                    some ⟨bytes "hosts", some ⟨i_flags2⟩⟩⟩) ∧
      i_flags1 &&& linux_x86_64.S_IMMUTABLE = linux_x86_64.S_IMMUTABLE ∧
      i_flags2 &&& linux_x86_64.S_IMMUTABLE = linux_x86_64.S_IMMUTABLE ∧
      Spec.on_open linux_x86_64 (some (cstr (bytes "hosts"))) (cstr (bytes "attacker"))
          0o3002 3
        = Disposition.Downgraded
            ((0o3002 &&& not32 linux_x86_64.O_TRUNC) &&& not32 linux_x86_64.O_APPEND)
            ((3 &&& not32 linux_x86_64.FMODE_WRITE) ||| linux_x86_64.FMODE_READ) :=
  ⟨⟨by decide, by decide, by decide⟩,
    handler_open_downgrade_twice linux_x86_64 (bytes "attacker") (bytes "hosts")
      0o3002 3 0 (by decide) (by decide) (by decide)⟩

/-- C9: `handler_unlink` matches the name exactly and case-sensitively: when
the base name is not byte-for-byte `hosts`, the dentry and the inode's
`i_flags` are left as they were for every caller (disposition `Unchanged`);
so whenever the handler changes anything, the name is exactly `hosts`. -/
theorem handler_unlink_other_name_unchanged (k : KConsts) (comm name : List Nat)
    (inode : Option Inode) :
    (cstr name ≠ TARGET_FILENAME →
      handler_unlink k comm (some ⟨name, inode⟩) = (0, some ⟨name, inode⟩) ∧
      Spec.on_unlink (some (cstr name)) (cstr comm) = Disposition.Unchanged) ∧
    (handler_unlink k comm (some ⟨name, inode⟩) ≠ (0, some ⟨name, inode⟩) →
      cstr name = TARGET_FILENAME) := by
  have key : cstr name ≠ TARGET_FILENAME →
      handler_unlink k comm (some ⟨name, inode⟩) = (0, some ⟨name, inode⟩) := by
    intro hname
    have h1 : ¬ strcmp name TARGET_FILENAME = 0 := fun h => hname ((name_test_iff name).1 h)
    cases inode with
    | none => simp only [handler_unlink]
    | some i => simp only [handler_unlink, h1, if_false]
  refine ⟨fun hname => ⟨key hname, ?_⟩, fun hchg => ?_⟩
  · simp only [Spec.on_unlink, hname, ne_eq, not_false_eq_true, if_true]
  · by_contra hname
    exact hchg (key hname)

/-- The names `Hosts`, `host`, `hosts.bak`, `/etc/hosts` and the empty name
leave an unlink by `attacker` without effect; the unlink that does change the
flag word has the name `hosts`. -/
theorem handler_unlink_other_name_unchanged_witness :
    (handler_unlink linux_x86_64 (bytes "attacker") (some ⟨bytes "Hosts", some ⟨0⟩⟩)
      = (0, some ⟨bytes "Hosts", some ⟨0⟩⟩)) ∧
    (handler_unlink linux_x86_64 (bytes "attacker") (some ⟨bytes "host", some ⟨0⟩⟩)
      = (0, some ⟨bytes "host", some ⟨0⟩⟩)) ∧
    (handler_unlink linux_x86_64 (bytes "attacker") (some ⟨bytes "hosts.bak", some ⟨0⟩⟩)
      = (0, some ⟨bytes "hosts.bak", some ⟨0⟩⟩)) ∧
    (handler_unlink linux_x86_64 (bytes "attacker") (some ⟨bytes "/etc/hosts", some ⟨0⟩⟩)
      = (0, some ⟨bytes "/etc/hosts", some ⟨0⟩⟩)) ∧
    (handler_unlink linux_x86_64 (bytes "attacker") (some ⟨bytes "", some ⟨0⟩⟩)
      = (0, some ⟨bytes "", some ⟨0⟩⟩)) ∧
    cstr (bytes "hosts") = TARGET_FILENAME :=
  ⟨((handler_unlink_other_name_unchanged linux_x86_64 (bytes "attacker") (bytes "Hosts")
      (some ⟨0⟩)).1 (by decide)).1,
   ((handler_unlink_other_name_unchanged linux_x86_64 (bytes "attacker") (bytes "host")
      (some ⟨0⟩)).1 (by decide)).1,
   ((handler_unlink_other_name_unchanged linux_x86_64 (bytes "attacker") (bytes "hosts.bak")
      (some ⟨0⟩)).1 (by decide)).1,
   ((handler_unlink_other_name_unchanged linux_x86_64 (bytes "attacker") (bytes "/etc/hosts")
      (some ⟨0⟩)).1 (by decide)).1,
   ((handler_unlink_other_name_unchanged linux_x86_64 (bytes "attacker") (bytes "")
      (some ⟨0⟩)).1 (by decide)).1,
   (handler_unlink_other_name_unchanged linux_x86_64 (bytes "attacker") (bytes "hosts")
      (some ⟨0⟩)).2 (by decide)⟩

/-- C10: both guards fail open on an unusable reference.  `handler_open`
returns `0` and changes nothing when the file pointer is `NULL` or the file
has no dentry; `handler_unlink` returns `0` and changes nothing when the
dentry pointer is `NULL` or the dentry has no inode, whatever the name and the
caller (disposition `Unchanged`). -/
theorem guards_fail_open (k : KConsts) (comm name : List Nat) (f_flags f_mode : Nat) :
    handler_open k comm none = (0, none) ∧
    handler_open k comm (some ⟨f_flags, f_mode, none⟩) = (0, some ⟨f_flags, f_mode, none⟩) ∧
    handler_unlink k comm none = (0, none) ∧
    handler_unlink k comm (some ⟨name, none⟩) = (0, some ⟨name, none⟩) ∧
    Spec.on_open k none (cstr comm) f_flags f_mode = Disposition.Unchanged ∧
    Spec.on_unlink none (cstr comm) = Disposition.Unchanged :=
  ⟨rfl, rfl, rfl, rfl, rfl, rfl⟩

/-! ## Module initialisation: no partial activation -/

/-- C11: for every negative error code `e`, from a kernel with no probe
registered: (1) when registering the open hook fails with `e`,
`dns_lock_init` returns `e`, makes no call to register the unlink hook and
leaves no hook registered; (2) when the open hook registers and registering
the unlink hook fails with `e`, `dns_lock_init` unregisters the open hook,
returns exactly `e` and leaves no hook registered; (3) for outcomes that are
`0` or negative, `dns_lock_init` returns `0` only when both hooks are
registered. -/
theorem dns_lock_init_no_partial_activation (e : Int) (he : e < 0) :
    (∀ ret_unlink : Int,
      dns_lock_init e ret_unlink Kernel.fresh
        = (e, ⟨false, false,
            [Call.register_kprobe .kp_open .handler_open, Call.pr_err .kp_open]⟩) ∧
      ∀ h : PreHandler, Call.register_kprobe .kp_unlink h ∉
        (dns_lock_init e ret_unlink Kernel.fresh).2.calls) ∧
    dns_lock_init 0 e Kernel.fresh
      = (e, ⟨false, false,
          [Call.register_kprobe .kp_open .handler_open,
           Call.register_kprobe .kp_unlink .handler_unlink,
           Call.unregister_kprobe .kp_open, Call.pr_err .kp_unlink]⟩) ∧
    (∀ ret_open ret_unlink : Int, ret_open ≤ 0 → ret_unlink ≤ 0 →
      (dns_lock_init ret_open ret_unlink Kernel.fresh).1 = 0 →
      (dns_lock_init ret_open ret_unlink Kernel.fresh).2.kp_open_registered = true ∧
      (dns_lock_init ret_open ret_unlink Kernel.fresh).2.kp_unlink_registered = true) := by
  have hne : e ≠ 0 := by omega
  have h1 : ∀ ret_unlink : Int, dns_lock_init e ret_unlink Kernel.fresh
      = (e, ⟨false, false,
          [Call.register_kprobe .kp_open .handler_open, Call.pr_err .kp_open]⟩) := by
    intro ret_unlink
    simp [dns_lock_init, register_kprobe, Kernel.call, Kernel.fresh, he, hne]
  refine ⟨fun ret_unlink => ⟨h1 ret_unlink, ?_⟩, ?_, ?_⟩
  · intro h
    rw [h1 ret_unlink]
    simp
  · simp [dns_lock_init, register_kprobe, unregister_kprobe, Kernel.call, Kernel.fresh,
      Kernel.set_registered, he, hne]
  · intro ret_open ret_unlink ho hu hret
    by_cases h1o : ret_open < 0
    · have hr : (dns_lock_init ret_open ret_unlink Kernel.fresh).1 = ret_open := by
        simp [dns_lock_init, register_kprobe, h1o]
      omega
    · have ho0 : ret_open = 0 := by omega
      subst ho0
      by_cases h1u : ret_unlink < 0
      · have hr : (dns_lock_init 0 ret_unlink Kernel.fresh).1 = ret_unlink := by
          simp [dns_lock_init, register_kprobe, h1u]
        omega
      · have hu0 : ret_unlink = 0 := by omega
        subst hu0
        decide

/-- The error codes `-EINVAL` for the open hook and `-ENOMEM` for the unlink
hook, and the load in which both registrations succeed. -/
theorem dns_lock_init_no_partial_activation_witness :
    ((-22 : Int) < 0 ∧ (-12 : Int) < 0) ∧
    dns_lock_init (-22) 0 Kernel.fresh
      = (-22, ⟨false, false,
          [Call.register_kprobe .kp_open .handler_open, Call.pr_err .kp_open]⟩) ∧
    dns_lock_init 0 (-12) Kernel.fresh
      = (-12, ⟨false, false,
          [Call.register_kprobe .kp_open .handler_open,
           Call.register_kprobe .kp_unlink .handler_unlink,
           Call.unregister_kprobe .kp_open, Call.pr_err .kp_unlink]⟩) ∧
    ((dns_lock_init 0 0 Kernel.fresh).2.kp_open_registered = true ∧
      (dns_lock_init 0 0 Kernel.fresh).2.kp_unlink_registered = true) :=
  ⟨⟨by decide, by decide⟩,
    ((dns_lock_init_no_partial_activation (-22) (by decide)).1 0).1,
    (dns_lock_init_no_partial_activation (-12) (by decide)).2.1,
    (dns_lock_init_no_partial_activation (-12) (by decide)).2.2 0 0
      (by decide) (by decide) (by decide)⟩

/-! ## The open guard, whatever was requested -/

/-- C13: no write or truncate intent survives the open guard.  For an open of
an object named exactly `hosts` by a caller other than `dns_guard`, whatever
`f_flags` and `f_mode` ask for and whether or not the dentry has an inode, the
file that leaves `handler_open` has `FMODE_WRITE` cleared in `f_mode` and
`O_TRUNC` cleared in `f_flags`.  `FMODE_READ` and `FMODE_WRITE` are taken to
be different bits. -/
theorem handler_open_untrusted_no_write_survives (k : KConsts) (comm name : List Nat)
    (f_flags f_mode : Nat) (inode : Option Inode)
    (hrw : k.FMODE_READ &&& k.FMODE_WRITE = 0)
    (hname : cstr name = TARGET_FILENAME)
    (hcomm : cstr comm ≠ ALLOWED_COMM) :
    ∃ f_flags' f_mode' inode',
      handler_open k comm (some ⟨f_flags, f_mode, some ⟨name, inode⟩⟩)
        = (0, some ⟨f_flags', f_mode', some ⟨name, inode'⟩⟩) ∧
      f_mode' &&& k.FMODE_WRITE = 0 ∧
      f_flags' &&& k.O_TRUNC = 0 := by
  have h1 : strcmp name TARGET_FILENAME = 0 := (name_test_iff name).2 hname
  have h2 : ¬ strcmp comm ALLOWED_COMM = 0 := fun h => hcomm ((comm_test_iff comm).1 h)
  by_cases h3 : f_mode &&& k.FMODE_WRITE ≠ 0 ∨ f_flags &&& k.O_TRUNC ≠ 0
  · refine ⟨(f_flags &&& not32 k.O_TRUNC) &&& not32 k.O_APPEND,
      (f_mode &&& not32 k.FMODE_WRITE) ||| k.FMODE_READ,
      inode.map fun i => ⟨i.i_flags ||| k.S_IMMUTABLE⟩, ?_, ?_, ?_⟩
    · simp only [handler_open, h1, h2, if_true, if_false, if_pos h3]
    · exact and_not32_or_and f_mode k.FMODE_WRITE k.FMODE_READ hrw
    · exact and_not32_and_not32_and_left f_flags k.O_TRUNC k.O_APPEND
  · have hw : f_mode &&& k.FMODE_WRITE = 0 := by
      by_contra h
      exact h3 (Or.inl h)
    have ht : f_flags &&& k.O_TRUNC = 0 := by
      by_contra h
      exact h3 (Or.inr h)
    refine ⟨f_flags, f_mode, inode, ?_, hw, ht⟩
    simp only [handler_open, h1, h2, if_true, if_false, if_neg h3]

/-- Opens of `hosts` by `attacker`: a read-write open with `O_TRUNC` and
`O_APPEND`, and a read-only open. -/
theorem handler_open_untrusted_no_write_survives_witness :
    (linux_x86_64.FMODE_READ &&& linux_x86_64.FMODE_WRITE = 0 ∧
      cstr (bytes "hosts") = TARGET_FILENAME ∧
      cstr (bytes "attacker") ≠ ALLOWED_COMM) ∧
    (∃ f_flags' f_mode' inode',
      handler_open linux_x86_64 (bytes "attacker")
          (some ⟨0o3002, 3, some ⟨bytes "hosts", some ⟨0⟩⟩⟩)
        = (0, some ⟨f_flags', f_mode', some ⟨bytes "hosts", inode'⟩⟩) ∧
      f_mode' &&& linux_x86_64.FMODE_WRITE = 0 ∧
      f_flags' &&& linux_x86_64.O_TRUNC = 0) ∧
    (∃ f_flags' f_mode' inode',
      handler_open linux_x86_64 (bytes "attacker")
          (some ⟨0, 1, some ⟨bytes "hosts", some ⟨0⟩⟩⟩)
        = (0, some ⟨f_flags', f_mode', some ⟨bytes "hosts", inode'⟩⟩) ∧
      f_mode' &&& linux_x86_64.FMODE_WRITE = 0 ∧
      f_flags' &&& linux_x86_64.O_TRUNC = 0) :=
  ⟨⟨by decide, by decide, by decide⟩,
    handler_open_untrusted_no_write_survives linux_x86_64 (bytes "attacker") (bytes "hosts")
      0o3002 3 (some ⟨0⟩) (by decide) (by decide) (by decide),
    handler_open_untrusted_no_write_survives linux_x86_64 (bytes "attacker") (bytes "hosts")
      0 1 (some ⟨0⟩) (by decide) (by decide) (by decide)⟩

/-- C17: an open through a dentry named exactly `hosts` that has no inode.
`handler_open` returns `0` and the dentry still has no inode, for every
caller; for a caller other than `dns_guard` asking for `FMODE_WRITE` or
`O_TRUNC` the file leaves with `O_TRUNC`, `O_APPEND` and `FMODE_WRITE` cleared
and `FMODE_READ` set; for the caller `dns_guard` the file is left exactly as
requested.  `FMODE_READ` and `FMODE_WRITE` are taken to be different bits. -/
theorem handler_open_no_inode (k : KConsts) (name : List Nat) (f_flags f_mode : Nat)
    (hrw : k.FMODE_READ &&& k.FMODE_WRITE = 0)
    (hname : cstr name = TARGET_FILENAME) :
    (∀ comm : List Nat, ∃ f_flags' f_mode',
      handler_open k comm (some ⟨f_flags, f_mode, some ⟨name, none⟩⟩)
        = (0, some ⟨f_flags', f_mode', some ⟨name, none⟩⟩)) ∧
    (∀ comm : List Nat, cstr comm ≠ ALLOWED_COMM →
      (f_mode &&& k.FMODE_WRITE ≠ 0 ∨ f_flags &&& k.O_TRUNC ≠ 0) →
      ∃ f_flags' f_mode',
        handler_open k comm (some ⟨f_flags, f_mode, some ⟨name, none⟩⟩)
          = (0, some ⟨f_flags', f_mode', some ⟨name, none⟩⟩) ∧
        f_flags' &&& k.O_TRUNC = 0 ∧
        f_flags' &&& k.O_APPEND = 0 ∧
        f_mode' &&& k.FMODE_WRITE = 0 ∧
        f_mode' &&& k.FMODE_READ = k.FMODE_READ) ∧
    (∀ comm : List Nat, cstr comm = ALLOWED_COMM →
      handler_open k comm (some ⟨f_flags, f_mode, some ⟨name, none⟩⟩)
        = (0, some ⟨f_flags, f_mode, some ⟨name, none⟩⟩)) := by
  have h1 : strcmp name TARGET_FILENAME = 0 := (name_test_iff name).2 hname
  have hdown : ∀ comm : List Nat, ¬ strcmp comm ALLOWED_COMM = 0 →
      (f_mode &&& k.FMODE_WRITE ≠ 0 ∨ f_flags &&& k.O_TRUNC ≠ 0) →
      handler_open k comm (some ⟨f_flags, f_mode, some ⟨name, none⟩⟩)
        = (0, some ⟨(f_flags &&& not32 k.O_TRUNC) &&& not32 k.O_APPEND,
            (f_mode &&& not32 k.FMODE_WRITE) ||| k.FMODE_READ, some ⟨name, none⟩⟩) := by
    intro comm h2 h3
    simp only [handler_open, h1, h2, if_true, if_false, if_pos h3, Option.map_none']
  have hsame : ∀ comm : List Nat,
      (strcmp comm ALLOWED_COMM = 0 ∨
        ¬ (f_mode &&& k.FMODE_WRITE ≠ 0 ∨ f_flags &&& k.O_TRUNC ≠ 0)) →
      handler_open k comm (some ⟨f_flags, f_mode, some ⟨name, none⟩⟩)
        = (0, some ⟨f_flags, f_mode, some ⟨name, none⟩⟩) := by
    intro comm h
    by_cases h2 : strcmp comm ALLOWED_COMM = 0
    · simp only [handler_open, h1, h2, if_true, Option.map_none']
    · rcases h with h | h3
      · exact absurd h h2
      · simp only [handler_open, h1, h2, if_true, if_false, if_neg h3]
  refine ⟨fun comm => ?_, fun comm hcomm hreq => ?_, fun comm hcomm => ?_⟩
  · by_cases h2 : strcmp comm ALLOWED_COMM = 0
    · exact ⟨f_flags, f_mode, hsame comm (Or.inl h2)⟩
    · by_cases h3 : f_mode &&& k.FMODE_WRITE ≠ 0 ∨ f_flags &&& k.O_TRUNC ≠ 0
      · exact ⟨_, _, hdown comm h2 h3⟩
      · exact ⟨f_flags, f_mode, hsame comm (Or.inr h3)⟩
  · have h2 : ¬ strcmp comm ALLOWED_COMM = 0 := fun h => hcomm ((comm_test_iff comm).1 h)
    exact ⟨_, _, hdown comm h2 hreq,
      and_not32_and_not32_and_left f_flags k.O_TRUNC k.O_APPEND,
      and_not32_and_self _ k.O_APPEND,
      and_not32_or_and f_mode k.FMODE_WRITE k.FMODE_READ hrw,
      or_and_self _ k.FMODE_READ⟩
  · exact hsame comm (Or.inl ((comm_test_iff comm).2 hcomm))

/-- A write-only open with `O_TRUNC` through a `hosts` dentry without inode:
by `attacker` it is downgraded to flags `1` and mode `1`, by `dns_guard` it is
left as requested. -/
theorem handler_open_no_inode_witness :
    (linux_x86_64.FMODE_READ &&& linux_x86_64.FMODE_WRITE = 0 ∧
      cstr (bytes "hosts") = TARGET_FILENAME ∧
      cstr (bytes "attacker") ≠ ALLOWED_COMM ∧
      cstr (bytes "dns_guard") = ALLOWED_COMM ∧
      (2 &&& linux_x86_64.FMODE_WRITE ≠ 0 ∨ 0o1001 &&& linux_x86_64.O_TRUNC ≠ 0)) ∧
    (∃ f_flags' f_mode',
      handler_open linux_x86_64 (bytes "attacker")
          (some ⟨0o1001, 2, some ⟨bytes "hosts", none⟩⟩)
        = (0, some ⟨f_flags', f_mode', some ⟨bytes "hosts", none⟩⟩) ∧
      f_flags' &&& linux_x86_64.O_TRUNC = 0 ∧
      f_flags' &&& linux_x86_64.O_APPEND = 0 ∧
      f_mode' &&& linux_x86_64.FMODE_WRITE = 0 ∧
      f_mode' &&& linux_x86_64.FMODE_READ = linux_x86_64.FMODE_READ) ∧
    handler_open linux_x86_64 (bytes "dns_guard")
        (some ⟨0o1001, 2, some ⟨bytes "hosts", none⟩⟩)
      = (0, some ⟨0o1001, 2, some ⟨bytes "hosts", none⟩⟩) :=
  ⟨⟨by decide, by decide, by decide, by decide, by decide⟩,
    (handler_open_no_inode linux_x86_64 (bytes "hosts") 0o1001 2 (by decide) (by decide)).2.1
      (bytes "attacker") (by decide) (by decide),
    (handler_open_no_inode linux_x86_64 (bytes "hosts") 0o1001 2 (by decide) (by decide)).2.2
      (bytes "dns_guard") (by decide)⟩

/-! ## Return value, frame and idempotence, for every input -/

/-- Outside the mask, `x &= ~m` keeps each of the 32 bits of `x`. -/
theorem testBit_and_not32 (x m i : Nat) (hi : i < 32) (hm : m.testBit i = false) :
    (x &&& not32 m).testBit i = x.testBit i := by
  simp [Nat.testBit_and, testBit_not32, hi, hm]

/-- Outside the mask, `x |= m` keeps each bit of `x`. -/
theorem testBit_or_mask (x m i : Nat) (hm : m.testBit i = false) :
    (x ||| m).testBit i = x.testBit i := by
  simp [Nat.testBit_or, hm]

theorem agree_outside_refl (mask x : Nat) : agree_outside mask x x :=
  fun _ _ _ => rfl

theorem frame_inode_refl (k : KConsts) (a : Option Inode) : frame_inode k a a := by
  cases a with
  | none => trivial
  | some a => exact agree_outside_refl _ _

theorem frame_dentry_refl (k : KConsts) (a : Option Dentry) : frame_dentry k a a := by
  cases a with
  | none => trivial
  | some a => exact ⟨rfl, frame_inode_refl k _⟩

theorem frame_file_refl (k : KConsts) (a : Option File) : frame_file k a a := by
  cases a with
  | none => trivial
  | some a => exact ⟨agree_outside_refl _ _, agree_outside_refl _ _, frame_dentry_refl k _⟩

/-- Clearing `S_IMMUTABLE` stays within the inode frame. -/
theorem frame_inode_clear (k : KConsts) (a : Option Inode) :
    frame_inode k a (a.map fun i => { i with i_flags := i.i_flags &&& not32 k.S_IMMUTABLE }) := by
  cases a with
  | none => trivial
  | some a =>
    intro i hi hm
    exact (testBit_and_not32 a.i_flags k.S_IMMUTABLE i hi hm).symm

/-- Setting `S_IMMUTABLE` stays within the inode frame. -/
theorem frame_inode_set (k : KConsts) (a : Option Inode) :
    frame_inode k a (a.map fun i => { i with i_flags := i.i_flags ||| k.S_IMMUTABLE }) := by
  cases a with
  | none => trivial
  | some a =>
    intro i _ hm
    exact (testBit_or_mask a.i_flags k.S_IMMUTABLE i hm).symm

/-- The downgrade of `f_flags` touches bits of `O_TRUNC` and `O_APPEND` only. -/
theorem agree_outside_flags (t a x : Nat) :
    agree_outside (t ||| a) x ((x &&& not32 t) &&& not32 a) := by
  intro i hi hm
  rw [Nat.testBit_or, Bool.or_eq_false_iff] at hm
  rw [testBit_and_not32 _ a i hi hm.2, testBit_and_not32 x t i hi hm.1]

/-- The downgrade of `f_mode` touches bits of `FMODE_WRITE` and `FMODE_READ` only. -/
theorem agree_outside_mode (w r x : Nat) :
    agree_outside (w ||| r) x ((x &&& not32 w) ||| r) := by
  intro i hi hm
  rw [Nat.testBit_or, Bool.or_eq_false_iff] at hm
  rw [testBit_or_mask _ r i hm.2, testBit_and_not32 x w i hi hm.1]

/-- C16: both guards return `0` to the kprobe machinery for every input:
whether the attempt was left unchanged, downgraded or hardened, the return
value is the same, so the intercepted operation always proceeds and the
outcome is carried by `f_flags`, `f_mode` and `i_flags` only. -/
theorem handlers_return_zero (k : KConsts) (comm : List Nat) (f : Option File)
    (d : Option Dentry) :
    (handler_open k comm f).1 = 0 ∧ (handler_unlink k comm d).1 = 0 := by
  constructor
  · unfold handler_open
    split
    · rfl
    · split
      · rfl
      · dsimp only
        split_ifs <;> rfl
  · unfold handler_unlink
    split
    · rfl
    · split
      · rfl
      · split_ifs <;> rfl

/-- C14: bit-level frame of both guards, for every input.  `handler_open`
changes no bit of `f_flags` outside `O_TRUNC` and `O_APPEND`, no bit of
`f_mode` outside `FMODE_WRITE` and `FMODE_READ`, no bit of the inode's
`i_flags` outside `S_IMMUTABLE`, and keeps the pointers and the name.
`handler_unlink`, which is passed the dentry alone (no `struct file`, hence no
`f_flags` or `f_mode`), changes no bit of `i_flags` outside `S_IMMUTABLE` and
keeps the pointers and the name. -/
theorem handlers_bit_frame (k : KConsts) (comm : List Nat) (f : Option File)
    (d : Option Dentry) :
    frame_file k f (handler_open k comm f).2 ∧
    frame_dentry k d (handler_unlink k comm d).2 := by
  constructor
  · match f with
    | none => trivial
    | some ⟨f_flags, f_mode, none⟩ => exact frame_file_refl k _
    | some ⟨f_flags, f_mode, some ⟨name, inode⟩⟩ =>
      by_cases h1 : strcmp name TARGET_FILENAME = 0
      · by_cases h2 : strcmp comm ALLOWED_COMM = 0
        · simp only [handler_open, h1, h2, if_true]
          exact ⟨agree_outside_refl _ _, agree_outside_refl _ _, rfl, frame_inode_clear k inode⟩
        · by_cases h3 : f_mode &&& k.FMODE_WRITE ≠ 0 ∨ f_flags &&& k.O_TRUNC ≠ 0
          · simp only [handler_open, h1, h2, if_true, if_false, if_pos h3]
            exact ⟨agree_outside_flags _ _ _, agree_outside_mode _ _ _, rfl,
              frame_inode_set k inode⟩
          · simp only [handler_open, h1, h2, if_true, if_false, if_neg h3]
            exact frame_file_refl k _
      · simp only [handler_open, h1, if_false]
        exact frame_file_refl k _
  · match d with
    | none => trivial
    | some ⟨name, none⟩ => exact frame_dentry_refl k _
    | some ⟨name, some inode⟩ =>
      by_cases h1 : strcmp name TARGET_FILENAME = 0
      · by_cases h2 : strcmp comm ALLOWED_COMM = 0
        · simp only [handler_unlink, h1, h2, if_true, ne_eq, not_true_eq_false, if_false]
          exact frame_dentry_refl k _
        · simp only [handler_unlink, h1, if_true, ne_eq, h2, not_false_eq_true]
          exact ⟨rfl, frame_inode_set k (some inode)⟩
      · simp only [handler_unlink, h1, if_false]
        exact frame_dentry_refl k _

/-- The frame predicates are not vacuous: flipping `O_APPEND` is within the
frame of `f_flags`, flipping `O_WRONLY` is not. -/
theorem agree_outside_discriminates :
    agree_outside (linux_x86_64.O_TRUNC ||| linux_x86_64.O_APPEND) 0o2001 0o0001 ∧
    ¬ agree_outside (linux_x86_64.O_TRUNC ||| linux_x86_64.O_APPEND) 0o2001 0o2000 := by
  decide

/-- Clearing a mask twice is clearing it once. -/
theorem and_not32_idem (x m : Nat) : (x &&& not32 m) &&& not32 m = x &&& not32 m := by
  rw [Nat.and_assoc, Nat.and_self]

/-- Setting a mask twice is setting it once. -/
theorem or_idem (x m : Nat) : (x ||| m) ||| m = x ||| m := by
  rw [Nat.or_assoc, Nat.or_self]

/-- The downgrade of `f_flags` applied to its own result changes nothing. -/
theorem downgrade_flags_idem (t a x : Nat) :
    (((x &&& not32 t) &&& not32 a) &&& not32 t) &&& not32 a
      = (x &&& not32 t) &&& not32 a := by
  apply Nat.eq_of_testBit_eq
  intro i
  simp only [Nat.testBit_and, testBit_not32]
  cases x.testBit i <;> cases t.testBit i <;> cases a.testBit i <;> simp

/-- The downgrade of `f_mode` applied to its own result changes nothing. -/
theorem downgrade_mode_idem (w r x : Nat) :
    ((((x &&& not32 w) ||| r) &&& not32 w) ||| r) = (x &&& not32 w) ||| r := by
  apply Nat.eq_of_testBit_eq
  intro i
  simp only [Nat.testBit_and, Nat.testBit_or, testBit_not32]
  cases x.testBit i <;> cases w.testBit i <;> cases r.testBit i <;> simp

/-- Clearing `S_IMMUTABLE` in an inode that may be absent, twice. -/
theorem map_clear_idem (k : KConsts) (inode : Option Inode) :
    (inode.map fun i : Inode => ({ i with i_flags := i.i_flags &&& not32 k.S_IMMUTABLE } : Inode)).map
        (fun i : Inode => ({ i with i_flags := i.i_flags &&& not32 k.S_IMMUTABLE } : Inode))
      = inode.map fun i : Inode => ({ i with i_flags := i.i_flags &&& not32 k.S_IMMUTABLE } : Inode) := by
  cases inode with
  | none => rfl
  | some i => simp only [Option.map_some', and_not32_idem]

/-- Setting `S_IMMUTABLE` in an inode that may be absent, twice. -/
theorem map_set_idem (k : KConsts) (inode : Option Inode) :
    (inode.map fun i : Inode => ({ i with i_flags := i.i_flags ||| k.S_IMMUTABLE } : Inode)).map
        (fun i : Inode => ({ i with i_flags := i.i_flags ||| k.S_IMMUTABLE } : Inode))
      = inode.map fun i : Inode => ({ i with i_flags := i.i_flags ||| k.S_IMMUTABLE } : Inode) := by
  cases inode with
  | none => rfl
  | some i => simp only [Option.map_some', or_idem]

/-- C15: both guards are idempotent.  For every caller and every input
(any name, `f_flags`, `f_mode` and `i_flags`, pointers present or `NULL`),
running `handler_open` on the file it has just produced, for the same caller,
gives that file again with the same return value; likewise for
`handler_unlink` on the dentry it has just produced. -/
theorem handlers_idempotent (k : KConsts) (comm : List Nat) (f : Option File)
    (d : Option Dentry) :
    handler_open k comm (handler_open k comm f).2 = handler_open k comm f ∧
    handler_unlink k comm (handler_unlink k comm d).2 = handler_unlink k comm d := by
  constructor
  · match f with
    | none => rfl
    | some ⟨f_flags, f_mode, none⟩ => rfl
    | some ⟨f_flags, f_mode, some ⟨name, inode⟩⟩ =>
      by_cases h1 : strcmp name TARGET_FILENAME = 0
      · by_cases h2 : strcmp comm ALLOWED_COMM = 0
        · simp only [handler_open, h1, h2, if_true, map_clear_idem]
        · by_cases h3 : f_mode &&& k.FMODE_WRITE ≠ 0 ∨ f_flags &&& k.O_TRUNC ≠ 0
          · have e : handler_open k comm (some ⟨f_flags, f_mode, some ⟨name, inode⟩⟩)
                = (0, some ⟨(f_flags &&& not32 k.O_TRUNC) &&& not32 k.O_APPEND,
                    (f_mode &&& not32 k.FMODE_WRITE) ||| k.FMODE_READ,
                    some ⟨name, inode.map fun i : Inode =>
                      ({ i with i_flags := i.i_flags ||| k.S_IMMUTABLE } : Inode)⟩⟩) := by
              simp only [handler_open, h1, h2, if_true, if_false, if_pos h3]
            rw [e]
            by_cases h4 : ((f_mode &&& not32 k.FMODE_WRITE) ||| k.FMODE_READ) &&& k.FMODE_WRITE ≠ 0 ∨
                ((f_flags &&& not32 k.O_TRUNC) &&& not32 k.O_APPEND) &&& k.O_TRUNC ≠ 0
            · simp only [handler_open, h1, h2, if_true, if_false, if_pos h4,
                downgrade_flags_idem, downgrade_mode_idem, map_set_idem]
            · simp only [handler_open, h1, h2, if_true, if_false, if_neg h4]
          · simp only [handler_open, h1, h2, if_true, if_false, if_neg h3]
      · simp only [handler_open, h1, if_false]
  · match d with
    | none => rfl
    | some ⟨name, none⟩ => rfl
    | some ⟨name, some inode⟩ =>
      by_cases h1 : strcmp name TARGET_FILENAME = 0
      · by_cases h2 : strcmp comm ALLOWED_COMM = 0
        · simp only [handler_unlink, h1, h2, if_true, ne_eq, not_true_eq_false, if_false]
        · simp only [handler_unlink, h1, if_true, ne_eq, h2, not_false_eq_true, or_idem]
      · simp only [handler_unlink, h1, if_false]

end DnsLock
